import Mathlib

/-!
Formal model of the macro-dashboard time-series pipeline.

The repository consists of two dashboard scripts.  `src/app.py` provides
`fetch_fred_series` (one HTTP GET of a FRED series, decoded into a date/value
table), `apply_moving_average` (trailing rolling mean with `min_periods = 1`
semantics) and a chart helper.  `src/jsmacro_dashboard_yoy_fixed.py` provides
`plot_series`, which optionally replaces the value column by a trailing
year-over-year percent change (`pct_change(periods=12) * 100` followed by
`dropna`) before charting.

The Observation Table is modelled as a list of date/value rows with rational
values (floating-point rounding is outside the scope of this model).  The HTTP
layer is modelled by exactly the data the fetcher inspects: status code, body
text, and the decoded `observations` array.  Each raw observation's value
field is recorded as the result of the numeric coercion performed by
`pd.to_numeric(..., errors="coerce")`: `some q` for a numeric value string,
`none` for a non-numeric sentinel such as ".".
-/

namespace MacroDashboard

/-- A row of an Observation Table: the frame `df` with columns `date` and
`value` that `fetch_fred_series` returns. -/
structure Obs where
  date : String
  value : ℚ
  deriving DecidableEq, Repr

/-- A raw record of the decoded JSON `observations` array.  The `value` field
records the result of `pd.to_numeric(value, errors="coerce")` on the value
string: `none` when the string is a non-numeric sentinel. -/
structure RawObs where
  date : String
  value : Option ℚ
  deriving DecidableEq, Repr

/-- The parts of the HTTP response that `fetch_fred_series` inspects:
`response.status_code`, `response.text`, and the decoded
`response.json().get("observations", [])`. -/
structure HttpResponse where
  status_code : ℕ
  text : String
  observations : List RawObs
  deriving DecidableEq, Repr

/-- The failure outcomes of `fetch_fred_series`.  Both are raised as
`ValueError` in the source; the first carries the HTTP status code and the
first 200 characters of the response body (`response.text[:200]`), the second
is the no-data message. -/
inductive FetchFailure where
  | fetchError (status : ℕ) (truncatedBody : String)
  | noDataError
  deriving DecidableEq, Repr

/-- Model of `fetch_fred_series` (src/app.py, lines 109-123).  A status code
other than 200 raises the fetch error; an empty raw observation list raises
the no-data error; otherwise rows whose value coerced to a number survive
(`dropna` removes the rows whose coercion produced a missing value) and the
table of parsed rows is returned. -/
def fetch_fred_series (resp : HttpResponse) : Except FetchFailure (List Obs) :=
  if resp.status_code ≠ 200 then
    Except.error (FetchFailure.fetchError resp.status_code (resp.text.take 200))
  else if resp.observations.isEmpty then
    Except.error FetchFailure.noDataError
  else
    Except.ok (resp.observations.filterMap fun o => o.value.map fun v => Obs.mk o.date v)

/-- Model of the trailing window that
`Series.rolling(window=w, min_periods=1)` bundles at row `i`: the slice of
the value column from position `i + 1 - w` (truncated at 0 by natural
subtraction) up to and including position `i`. -/
def windowSlice (vals : List ℚ) (window i : ℕ) : List ℚ :=
  (vals.take (i + 1)).drop (i + 1 - window)

/-- Model of `apply_moving_average` (src/app.py, lines 126-144): the frame is
copied and its value column replaced by the rolling mean
`df["value"].rolling(window=window, min_periods=1).mean()`; the date column is
kept. -/
def apply_moving_average (df : List Obs) (window : ℕ) : List Obs :=
  df.mapIdx fun i o =>
    Obs.mk o.date ((windowSlice (df.map Obs.value) window i).sum /
      ((windowSlice (df.map Obs.value) window i).length : ℚ))

/-- Model of the pandas `Series.shift(p)` used inside `pct_change`: the value
column moved down by `p` positions, the leading `p` entries becoming missing
(NaN). -/
def shift (p : ℕ) (vals : List ℚ) : List (Option ℚ) :=
  (List.replicate p none ++ vals.map some).take vals.length

/-- Model of `Series.pct_change(periods=p)` on a fully valid value column:
elementwise `current / shifted - 1`, missing exactly where the shifted series
is missing. -/
def pct_change (vals : List ℚ) (p : ℕ) : List (Option ℚ) :=
  List.zipWith (fun cur prev => prev.map fun q => cur / q - 1) vals (shift p vals)

/-- Model of `plot_series` (src/jsmacro_dashboard_yoy_fixed.py, lines 85-91),
restricted to the table handed to `px.line`.  With `apply_yoy` set, the value
column is replaced by `df["Value"].pct_change(periods=12) * 100` and rows with
a missing value are dropped (`dropna`); otherwise the table passes through
unchanged. -/
def plot_series (df : List Obs) (apply_yoy : Bool) : List Obs :=
  if apply_yoy then
    (df.zip ((pct_change (df.map Obs.value) 12).map (Option.map fun v => v * 100))).filterMap
      fun p => p.2.map fun v => Obs.mk p.1.date v
  else
    df

/-- Spec-side list of row indices of the trailing window ending at row `i`:
the indices `max (0, i - window + 1) .. i`, written with truncated natural
subtraction. -/
def trailingIndices (window i : ℕ) : List ℕ :=
  List.range' (i + 1 - window) ((i + 1) - (i + 1 - window))

/-- Spec-side arithmetic mean of the input values over the trailing window
`max (0, i - window + 1) .. i`. -/
def trailingMean (vals : List ℚ) (window i : ℕ) : ℚ :=
  ((trailingIndices window i).map fun j => vals.getD j 0).sum /
    ((trailingIndices window i).length : ℚ)

/-- A concrete three-row table used as a witness input. -/
def exDf : List Obs :=
  [Obs.mk "2020-01-01" 1, Obs.mk "2020-02-01" 2, Obs.mk "2020-03-01" 3]

/-- The thirteen monthly observations of the end-to-end scenario: values grow
linearly from 1.0 on 2020-01-01 to 1.1 on 2021-01-01. -/
def ex13 : List Obs :=
  [Obs.mk "2020-01-01" 1, Obs.mk "2020-02-01" (1 + 1/120),
   Obs.mk "2020-03-01" (1 + 2/120), Obs.mk "2020-04-01" (1 + 3/120),
   Obs.mk "2020-05-01" (1 + 4/120), Obs.mk "2020-06-01" (1 + 5/120),
   Obs.mk "2020-07-01" (1 + 6/120), Obs.mk "2020-08-01" (1 + 7/120),
   Obs.mk "2020-09-01" (1 + 8/120), Obs.mk "2020-10-01" (1 + 9/120),
   Obs.mk "2020-11-01" (1 + 10/120), Obs.mk "2020-12-01" (1 + 11/120),
   Obs.mk "2021-01-01" (11/10)]

/-- A response whose single observation carries the sentinel value:
numeric coercion yields a missing value for its only row. -/
def respAllSentinel : HttpResponse :=
  HttpResponse.mk 200 "" [RawObs.mk "2020-01-01" none]

/-- A response with status 200 and an empty raw observation list. -/
def respEmptyObs : HttpResponse := HttpResponse.mk 200 "" []

/-- A response with HTTP status 404. -/
def resp404 : HttpResponse := HttpResponse.mk 404 "error body" []

/-- A response of two observations, the second carrying the sentinel value. -/
def respOneSentinel : HttpResponse :=
  HttpResponse.mk 200 ""
    [RawObs.mk "2020-01-01" (some 1), RawObs.mk "2020-02-01" none]

/-- Helper: the number of parsed rows equals the number of raw observations
whose value coerced to a number. -/
lemma length_filterMap_obs (l : List RawObs) :
    (l.filterMap fun o => o.value.map fun v => Obs.mk o.date v).length =
      (l.filter fun o => o.value.isSome).length := by
  induction l with
  | nil => rfl
  | cons o t ih =>
    cases h : o.value <;> simp [List.filterMap_cons, List.filter_cons, h, ih]

/-- Helper: the rows with a numeric value and the rows with a sentinel value
partition the raw observation list. -/
lemma filter_isSome_add_isNone (l : List RawObs) :
    (l.filter fun o => o.value.isSome).length +
      (l.filter fun o => o.value.isNone).length = l.length := by
  induction l with
  | nil => rfl
  | cons o t ih =>
    cases h : o.value <;> simp [List.filter_cons, h] <;> omega

/-- Claim C7: a non-2xx HTTP status makes `fetch_fred_series` fail with the
fetch error carrying the status code and the first 200 characters of the
response body, returning no table. -/
theorem fetch_non2xx_fails (resp : HttpResponse)
    (h : resp.status_code < 200 ∨ 300 ≤ resp.status_code) :
    fetch_fred_series resp =
      Except.error (FetchFailure.fetchError resp.status_code (resp.text.take 200)) := by
  have hne : resp.status_code ≠ 200 := by
    rcases h with h | h <;> omega
  simp [fetch_fred_series, hne]

/-- Witness for C7: a 404 response fails with the fetch error carrying 404
and the body text. -/
theorem fetch_non2xx_fails_witness :
    (resp404.status_code < 200 ∨ 300 ≤ resp404.status_code) ∧
      fetch_fred_series resp404 =
        Except.error (FetchFailure.fetchError resp404.status_code (resp404.text.take 200)) :=
  ⟨Or.inr (by decide), fetch_non2xx_fails resp404 (Or.inr (by decide))⟩

/-- Counterexample to claim C1 as stated: a status-200 response whose only
observation carries the sentinel value is accepted by the fetcher, yet the
returned table has zero rows, not at least one. -/
theorem fetch_all_sentinel_ok_empty :
    fetch_fred_series respAllSentinel = Except.ok [] ∧ ¬ 1 ≤ ([] : List Obs).length :=
  ⟨by rfl, by decide⟩

/-- Claim C1 (amended): the emptiness check runs on the raw observation list
before sentinel rows are dropped.  A status-200 response with an empty raw
observation list fails with the no-data error, and every accepted response
has a nonempty raw observation list; a nonempty response whose rows are all
sentinels is nevertheless accepted with an empty table. -/
theorem fetch_nodata_iff_raw_empty (resp : HttpResponse)
    (hs : resp.status_code = 200) :
    (resp.observations = [] →
      fetch_fred_series resp = Except.error FetchFailure.noDataError) ∧
    (∀ t, fetch_fred_series resp = Except.ok t → resp.observations ≠ []) := by
  constructor
  · intro hobs
    simp [fetch_fred_series, hs, hobs]
  · intro t hok hobs
    simp [fetch_fred_series, hs, hobs] at hok

/-- Witness for the amended C1: a status-200 response with an empty raw
observation list fails with the no-data error. -/
theorem fetch_nodata_iff_raw_empty_witness :
    respEmptyObs.status_code = 200 ∧
      fetch_fred_series respEmptyObs = Except.error FetchFailure.noDataError :=
  ⟨rfl, (fetch_nodata_iff_raw_empty respEmptyObs rfl).1 rfl⟩

/-- Claim C8: on every accepted fetch, the returned table keeps exactly the
raw observations whose value coerced to a number, so one sentinel among `n`
observations leaves `n - 1` rows, and every returned row's value is the
parsed number of some raw observation. -/
theorem fetch_drops_sentinels (resp : HttpResponse) (t : List Obs)
    (hok : fetch_fred_series resp = Except.ok t) :
    t.length = (resp.observations.filter fun o => o.value.isSome).length ∧
    ((resp.observations.filter fun o => o.value.isNone).length = 1 →
      t.length = resp.observations.length - 1) ∧
    ∀ o ∈ t, RawObs.mk o.date (some o.value) ∈ resp.observations := by
  by_cases h1 : resp.status_code ≠ 200
  · simp [fetch_fred_series, h1] at hok
  · by_cases h2 : resp.observations.isEmpty
    · simp [fetch_fred_series, h1, h2] at hok
    · have ht : t = resp.observations.filterMap fun o => o.value.map fun v => Obs.mk o.date v := by
        simp [fetch_fred_series, h1, h2] at hok
        exact hok.symm
      subst ht
      refine ⟨length_filterMap_obs resp.observations, ?_, ?_⟩
      · intro hone
        have := filter_isSome_add_isNone resp.observations
        have hlen := length_filterMap_obs resp.observations
        omega
      · intro o ho
        rcases List.mem_filterMap.mp ho with ⟨r, hr, hro⟩
        cases hv : r.value with
        | none => rw [hv] at hro; simp at hro
        | some v =>
          rw [hv] at hro
          simp at hro
          have hdate : r.date = o.date := by
            have := congrArg Obs.date hro
            simpa using this
          have hval : v = o.value := by
            have := congrArg Obs.value hro
            simpa using this
          have : RawObs.mk o.date (some o.value) = r := by
            cases r with
            | mk rd rv =>
              simp at hv hdate
              simp [hdate, hv, hval]
          rwa [this]

/-- Witness for C8: a two-observation response with one sentinel yields a
one-row table whose row is the parsed first observation. -/
theorem fetch_drops_sentinels_witness :
    fetch_fred_series respOneSentinel = Except.ok [Obs.mk "2020-01-01" 1] ∧
    ([Obs.mk "2020-01-01" 1].length =
        (respOneSentinel.observations.filter fun o => o.value.isSome).length ∧
      ((respOneSentinel.observations.filter fun o => o.value.isNone).length = 1 →
        [Obs.mk "2020-01-01" 1].length = respOneSentinel.observations.length - 1) ∧
      ∀ o ∈ [Obs.mk "2020-01-01" 1],
        RawObs.mk o.date (some o.value) ∈ respOneSentinel.observations) :=
  ⟨by rfl, fetch_drops_sentinels respOneSentinel [Obs.mk "2020-01-01" 1] (by rfl)⟩

/-- Helper: a contiguous slice of a list, written with `take` and `drop` as in
`windowSlice`, is the image of the corresponding index range. -/
lemma take_drop_eq_map_range' (l : List ℚ) (a b : ℕ) (hb : b ≤ l.length)
    (hab : a ≤ b) :
    (l.take b).drop a = (List.range' a (b - a)).map fun j => l.getD j 0 := by
  apply List.ext_getElem
  · simp [List.length_take, List.length_drop, Nat.min_eq_left hb]
  · intro k h1 h2
    have hk : k < b - a := by
      simpa [List.length_take, List.length_drop, Nat.min_eq_left hb] using h1
    have hak : a + k < b := by omega
    have hlb : a + k < l.length := by omega
    rw [List.getElem_drop, List.getElem_take]
    rw [List.getElem_map]
    rw [List.getElem_range']
    simp [List.getD_eq_getElem l 0 hlb, List.getElem?_eq_getElem hlb]

/-- Helper: the window slice at a row inside the table is the image of the
spec-side trailing index range. -/
lemma windowSlice_eq_map_trailingIndices (vals : List ℚ) (window i : ℕ)
    (hi : i < vals.length) :
    windowSlice vals window i = (trailingIndices window i).map fun j => vals.getD j 0 := by
  unfold windowSlice trailingIndices
  exact take_drop_eq_map_range' vals (i + 1 - window) (i + 1) (by omega) (by omega)

/-- Helper: replacing the value column of each row keeps the date column. -/
lemma mapIdx_map_date (g : ℕ → Obs → ℚ) (df : List Obs) :
    (df.mapIdx fun i o => Obs.mk o.date (g i o)).map Obs.date = df.map Obs.date := by
  induction df generalizing g with
  | nil => rfl
  | cons o t ih =>
    simp only [List.mapIdx_cons, List.map_cons]
    rw [ih fun i => g (i + 1)]

/-- Claim C4: for every table, window of at least 2, and row index inside the
table, the moving-average output at that row carries the original date and the
arithmetic mean of the input values over the trailing window
`max (0, i - window + 1) .. i`. -/
theorem moving_average_value_spec (df : List Obs) (window i : ℕ)
    (hw : 2 ≤ window) (hi : i < df.length) :
    (apply_moving_average df window)[i]? =
      some (Obs.mk ((df.getD i (Obs.mk "" 0)).date)
        (trailingMean (df.map Obs.value) window i)) := by
  have hlen : i < (apply_moving_average df window).length := by
    simpa [apply_moving_average, List.length_mapIdx] using hi
  rw [List.getElem?_eq_getElem hlen]
  unfold apply_moving_average at hlen ⊢
  rw [List.getElem_mapIdx]
  have hslice := windowSlice_eq_map_trailingIndices (df.map Obs.value) window i
    (by simpa using hi)
  rw [hslice]
  unfold trailingMean
  rw [List.getD_eq_getElem df (Obs.mk "" 0) hi]
  simp

/-- Witness for C4: on the three-row table with window 2, row 1 keeps its date
and carries the mean of rows 0 and 1. -/
theorem moving_average_value_spec_witness :
    2 ≤ 2 ∧ 1 < exDf.length ∧
      (apply_moving_average exDf 2)[1]? =
        some (Obs.mk ((exDf.getD 1 (Obs.mk "" 0)).date)
          (trailingMean (exDf.map Obs.value) 2 1)) :=
  ⟨by decide, by decide, moving_average_value_spec exDf 2 1 (by decide) (by decide)⟩

/-- Claim C5: on every table with at least `window` rows, the moving-average
output has the same number of rows as the input and an identical date
sequence. -/
theorem moving_average_shape (df : List Obs) (window : ℕ)
    (hlen : window ≤ df.length) :
    (apply_moving_average df window).length = df.length ∧
    (apply_moving_average df window).map Obs.date = df.map Obs.date := by
  constructor
  · simp [apply_moving_average, List.length_mapIdx]
  · exact mapIdx_map_date _ df

/-- Witness for C5: the three-row table with window 2 keeps its length and its
date sequence. -/
theorem moving_average_shape_witness :
    2 ≤ exDf.length ∧
      ((apply_moving_average exDf 2).length = exDf.length ∧
        (apply_moving_average exDf 2).map Obs.date = exDf.map Obs.date) :=
  ⟨by decide, moving_average_shape exDf 2 (by decide)⟩

/-- Claim C6: on every valid non-empty table, the moving average with window 1
is the identity transform. -/
theorem moving_average_window_one_id (df : List Obs) (h : df ≠ []) :
    apply_moving_average df 1 = df := by
  apply List.ext_getElem
  · simp [apply_moving_average, List.length_mapIdx]
  · intro i h1 h2
    unfold apply_moving_average
    rw [List.getElem_mapIdx]
    have hi : i < (df.map Obs.value).length := by simpa using h2
    have hslice := windowSlice_eq_map_trailingIndices (df.map Obs.value) 1 i hi
    have hidx : trailingIndices 1 i = [i] := by
      unfold trailingIndices
      simp
    rw [hslice, hidx]
    simp [List.getD_eq_getElem (df.map Obs.value) 0 hi, List.getElem?_eq_getElem h2]

/-- Witness for C6: on the three-row table, window 1 returns the table
unchanged. -/
theorem moving_average_window_one_id_witness :
    exDf ≠ [] ∧ apply_moving_average exDf 1 = exDf :=
  ⟨by decide, moving_average_window_one_id exDf (by decide)⟩

/-- Helper: zipping a list against the shifted-by-`k` column and dropping the
missing rows pairs each surviving row with the value `k` positions earlier.
The generalisation over `k` and the shifted tail drives the induction. -/
lemma filterMap_zip_shift (g : ℚ → ℚ → ℚ) :
    ∀ (df : List Obs) (k : ℕ) (shifted : List ℚ),
      ((df.zip (List.zipWith (fun cur prev => prev.map fun q => g cur q)
          (df.map Obs.value)
          ((List.replicate k none ++ shifted.map some).take df.length))).filterMap
        fun p => p.2.map fun v => Obs.mk p.1.date v) =
      List.zipWith (fun cur prevv => Obs.mk cur.date (g cur.value prevv))
        (df.drop k) shifted := by
  intro df
  induction df with
  | nil =>
    intro k shifted
    simp
  | cons o t ih =>
    intro k shifted
    cases k with
    | zero =>
      cases shifted with
      | nil => simp
      | cons s s' =>
        have htail := ih 0 s'
        simp only [List.replicate, List.nil_append, List.drop_zero] at htail ⊢
        simp only [List.map_cons, List.length_cons, List.take_succ_cons,
          List.zipWith_cons_cons, List.zip_cons_cons, List.filterMap_cons]
        simp [htail]
    | succ k' =>
      have htail := ih k' shifted
      simp only [List.replicate_succ, List.cons_append, List.map_cons,
        List.length_cons, List.take_succ_cons, List.zipWith_cons_cons,
        List.zip_cons_cons, List.filterMap_cons, List.drop_succ_cons]
      simp [htail]

/-- Helper: the transformed-and-dropped table of the year-over-year branch of
`plot_series` pairs each row from position 12 on with the row 12 positions
earlier and applies the percent-change formula to their values. -/
lemma plot_series_yoy_eq (df : List Obs) :
    plot_series df true =
      List.zipWith (fun cur prev => Obs.mk cur.date ((cur.value / prev.value - 1) * 100))
        (df.drop 12) df := by
  have hps : plot_series df true =
      (df.zip ((pct_change (df.map Obs.value) 12).map (Option.map fun v => v * 100))).filterMap
        fun p => p.2.map fun v => Obs.mk p.1.date v := rfl
  have hmap : (pct_change (df.map Obs.value) 12).map (Option.map fun v => v * 100) =
      List.zipWith (fun cur prev => prev.map fun q => (cur / q - 1) * 100)
        (df.map Obs.value)
        ((List.replicate 12 none ++ (df.map Obs.value).map some).take df.length) := by
    unfold pct_change shift
    rw [List.map_zipWith, List.length_map]
    congr 1
    funext cur prev
    cases prev <;> simp
  rw [hps, hmap]
  rw [filterMap_zip_shift (fun cur q => (cur / q - 1) * 100) df 12 (df.map Obs.value)]
  rw [List.zipWith_map_right]

/-- Helper: a zip-with that only looks at its left argument is a map of the
left list, provided the right list is at least as long. -/
lemma zipWith_left_of_le {α β γ : Type} (f : α → γ) :
    ∀ (l : List α) (l' : List β), l.length ≤ l'.length →
      List.zipWith (fun a _ => f a) l l' = l.map f := by
  intro l
  induction l with
  | nil => intro l' h; simp
  | cons a t ih =>
    intro l' h
    cases l' with
    | nil => simp at h
    | cons b t' =>
      simp only [List.zipWith_cons_cons, List.map_cons]
      rw [ih t' (by simpa using h)]

/-- Claim C2: the year-over-year output at the row coming from input row `i`
keeps the date of row `i` and carries `(value[i] / value[i-12] - 1) * 100`
whenever the row 12 positions earlier exists; on the thirteen monthly
observations growing from 1.0 to 1.1 the output is the single row
2021-01-01 with value 10. -/
theorem yoy_value_formula :
    (∀ (df : List Obs) (i : ℕ), 12 ≤ i → i < df.length →
      (plot_series df true)[i - 12]? =
        some (Obs.mk ((df.getD i (Obs.mk "" 0)).date)
          (((df.getD i (Obs.mk "" 0)).value /
            (df.getD (i - 12) (Obs.mk "" 0)).value - 1) * 100))) ∧
    plot_series ex13 true = [Obs.mk "2021-01-01" 10] := by
  constructor
  · intro df i h12 hlen
    rw [plot_series_yoy_eq]
    have h2 : i - 12 < df.length := by omega
    rw [List.getElem?_zipWith']
    rw [List.getElem?_drop]
    rw [show 12 + (i - 12) = i from by omega]
    rw [List.getElem?_eq_getElem hlen, List.getElem?_eq_getElem h2]
    simp [List.getD_eq_getElem df _ hlen, List.getD_eq_getElem df _ h2,
      List.getElem?_eq_getElem hlen, List.getElem?_eq_getElem h2]
  · rw [plot_series_yoy_eq]
    have hdrop : ex13.drop 12 = [Obs.mk "2021-01-01" (11/10)] := rfl
    rw [hdrop]
    have hzip : List.zipWith
        (fun cur prev => Obs.mk cur.date ((cur.value / prev.value - 1) * 100))
        [Obs.mk "2021-01-01" (11/10)] ex13 =
        [Obs.mk "2021-01-01" (((11:ℚ)/10 / 1 - 1) * 100)] := rfl
    rw [hzip]
    norm_num [Obs.mk.injEq]

/-- Witness for C2: the general formula applied to the scenario table at
input row 12. -/
theorem yoy_value_formula_witness :
    12 ≤ 12 ∧ 12 < ex13.length ∧
      (plot_series ex13 true)[12 - 12]? =
        some (Obs.mk ((ex13.getD 12 (Obs.mk "" 0)).date)
          (((ex13.getD 12 (Obs.mk "" 0)).value /
            (ex13.getD (12 - 12) (Obs.mk "" 0)).value - 1) * 100)) :=
  ⟨by decide, by decide, yoy_value_formula.1 ex13 12 (by decide) (by decide)⟩

/-- Claim C3: the year-over-year output has exactly `max (0, n - 12)` rows
(written with truncated natural subtraction), and every output row comes from
an input row whose 12-positions-earlier partner also lies inside the input. -/
theorem yoy_length_partner (df : List Obs) :
    (plot_series df true).length = df.length - 12 ∧
    ∀ j, j < (plot_series df true).length →
      j + 12 < df.length ∧
      (plot_series df true)[j]? =
        some (Obs.mk ((df.getD (j + 12) (Obs.mk "" 0)).date)
          (((df.getD (j + 12) (Obs.mk "" 0)).value /
            (df.getD j (Obs.mk "" 0)).value - 1) * 100)) := by
  have hc := plot_series_yoy_eq df
  have hlen : (plot_series df true).length = df.length - 12 := by
    rw [hc]
    simp only [List.length_zipWith, List.length_drop]
    omega
  refine ⟨hlen, ?_⟩
  intro j hj
  rw [hlen] at hj
  have hj12 : j + 12 < df.length := by omega
  have hjlt : j < df.length := by omega
  refine ⟨hj12, ?_⟩
  rw [hc]
  rw [List.getElem?_zipWith']
  rw [List.getElem?_drop]
  rw [show 12 + j = j + 12 from by omega]
  rw [List.getElem?_eq_getElem hj12, List.getElem?_eq_getElem hjlt]
  simp [List.getD_eq_getElem df _ hj12, List.getD_eq_getElem df _ hjlt,
    List.getElem?_eq_getElem hj12, List.getElem?_eq_getElem hjlt]

/-- Witness for C3: on the scenario table the output has one row, and row 0
pairs input rows 12 and 0. -/
theorem yoy_length_partner_witness :
    (plot_series ex13 true).length = ex13.length - 12 ∧
      0 < (plot_series ex13 true).length ∧
      0 + 12 < ex13.length ∧
      (plot_series ex13 true)[0]? =
        some (Obs.mk ((ex13.getD (0 + 12) (Obs.mk "" 0)).date)
          (((ex13.getD (0 + 12) (Obs.mk "" 0)).value /
            (ex13.getD 0 (Obs.mk "" 0)).value - 1) * 100)) :=
  ⟨(yoy_length_partner ex13).1, by decide,
    ((yoy_length_partner ex13).2 0 (by decide)).1,
    ((yoy_length_partner ex13).2 0 (by decide)).2⟩

/-- Claim C9: both transforms are pure functions of the input table (the
source copies the frame, so the input is never mutated), the moving average
keeps the date column unchanged, and the year-over-year transform keeps it
unchanged apart from dropping the leading 12 rows. -/
theorem transforms_preserve_dates (df : List Obs) (window : ℕ) :
    (apply_moving_average df window).map Obs.date = df.map Obs.date ∧
    (plot_series df true).map Obs.date = (df.map Obs.date).drop 12 := by
  constructor
  · exact mapIdx_map_date _ df
  · rw [plot_series_yoy_eq, List.map_zipWith]
    have hle : (df.drop 12).length ≤ df.length := by
      simp [List.length_drop]
    calc List.zipWith
          (fun x y => Obs.date (Obs.mk x.date ((x.value / y.value - 1) * 100)))
          (df.drop 12) df
        = List.zipWith (fun x _ => Obs.date x) (df.drop 12) df := rfl
      _ = (df.drop 12).map Obs.date := zipWith_left_of_le Obs.date (df.drop 12) df hle
      _ = (df.map Obs.date).drop 12 := List.map_drop Obs.date df 12

/-- Claim C10: an input series with fewer than 13 rows makes the
year-over-year transform return the empty table, with no error raised (the
function is total and simply yields no rows). -/
theorem yoy_short_input_empty (df : List Obs) (h : df.length < 13) :
    plot_series df true = [] := by
  rw [plot_series_yoy_eq]
  rw [List.drop_eq_nil_of_le (by omega : df.length ≤ 12)]
  simp

/-- Witness for C10: the three-row table yields an empty year-over-year
output. -/
theorem yoy_short_input_empty_witness :
    exDf.length < 13 ∧ plot_series exDf true = [] :=
  ⟨by decide, yoy_short_input_empty exDf (by decide)⟩

end MacroDashboard
